import Mathlib

/-!
Verification development for the Nexus-Analytics frontend.

This file gives a shallow embedding of the parts of the code that the
specification talks about: the browser localStorage, the generic data
fetching hook `useApiCall` (src/hooks/useAnalytics.ts), the hook URL
builders, the authentication context (src/contexts/AuthContext.tsx), the
login form (src/app/login/page.tsx), the reports page health check and its
auto retry effect (src/app/reports/page.tsx), and the chart utilities
(src/components/charts/ChartUtils.tsx). Asynchronous handlers are embedded
as state transition functions: a handler is a function from the component
state (and the localStorage contents) and the outcome of its fetch to the
new state. JavaScript numbers are modelled as rationals, JavaScript
truthiness of strings is modelled explicitly.
-/

namespace Nexus

/-- Browser localStorage, modelled as an association list from keys to
string values (at most one binding per key is maintained by the
operations below). -/
def Store : Type := List (String × String)

instance : DecidableEq Store := by
  unfold Store
  infer_instance

/-- localStorage.getItem. -/
def Store.get (s : Store) (k : String) : Option String :=
  (List.find? (fun p => p.1 == k) s).map (fun p => p.2)

/-- localStorage.setItem. -/
def Store.setItem (s : Store) (k v : String) : Store :=
  List.filter (fun p => p.1 != k) s ++ [(k, v)]

/-- localStorage.removeItem. -/
def Store.removeItem (s : Store) (k : String) : Store :=
  List.filter (fun p => p.1 != k) s

/-- The empty localStorage. -/
def Store.empty : Store := []

/-- JavaScript truthiness of a nullable string: null and the empty string
are falsy, every other string is truthy. -/
def truthy : Option String → Bool
  | none => false
  | some s => s ≠ ""

/-! ## The generic data fetching hook (useApiCall, src/hooks/useAnalytics.ts)

`useApiCall` holds three pieces of state: `data` (initially null),
`loading` (initially true) and `error` (initially null). Its `fetchData`
first sets `loading := true` and `error := null`, then performs the fetch;
a non ok response raises `Error("HTTP error! status: " ++ status)` which the
catch block stores in `error`; a network failure stores the message of the
raised error (or the fallback string for a non Error throw); a successful
response stores the parsed body in `data`. The finally block always sets
`loading := false`. -/

/-- The state of one `useApiCall` hook instance, with response body type
`T`. -/
structure ApiState (T : Type) where
  data : Option T
  loading : Bool
  error : Option String
deriving DecidableEq

/-- The initial hook state: `useState(null)`, `useState(true)`,
`useState(null)`. -/
def initialApiState (T : Type) : ApiState T :=
  { data := none, loading := true, error := none }

/-- Possible outcomes of the fetch performed by `fetchData`. -/
inductive FetchResult (T : Type) where
  /-- response.ok, body parsed as JSON. -/
  | ok (body : T)
  /-- response not ok, with its HTTP status code. -/
  | httpFailure (status : Nat)
  /-- fetch (or parsing) rejected with an Error whose message is `msg`. -/
  | thrown (msg : String)
deriving DecidableEq

/-- The synchronous prefix of `fetchData`: `setLoading(true)` and
`setError(null)` run before the fetch is awaited. -/
def fetchDataStart {T : Type} (s : ApiState T) : ApiState T :=
  { s with loading := true, error := none }

/-- The continuation of `fetchData` after the fetch settles, applied to
the state produced by `fetchDataStart`. -/
def fetchDataSettle {T : Type} (s : ApiState T) : FetchResult T → ApiState T
  | .ok body => { s with data := some body, loading := false }
  | .httpFailure status =>
      { s with error := some ("HTTP error! status: " ++ toString status),
               loading := false }
  | .thrown msg => { s with error := some msg, loading := false }

/-- One complete run of `fetchData`, from the state `s` the hook is in
when the call starts to the state after the finally block. -/
def fetchData {T : Type} (s : ApiState T) (r : FetchResult T) : ApiState T :=
  fetchDataSettle (fetchDataStart s) r

/-- The headers `useApiCall` attaches to its request
(src/hooks/useAnalytics.ts lines 30-39): always Content-Type, plus an
Authorization bearer header when `localStorage.getItem("token")` is
truthy. -/
def useApiCallHeaders (store : Store) : List (String × String) :=
  [("Content-Type", "application/json")] ++
    (if truthy (store.get "token") then
      match store.get "token" with
      | some t => [("Authorization", "Bearer " ++ t)]
      | none => []
    else [])

/-- Whether a header list contains an Authorization header. -/
def hasAuthHeader (hs : List (String × String)) : Bool :=
  hs.any (fun p => p.1 == "Authorization")

/-! ## The authentication context (src/contexts/AuthContext.tsx)

`AuthProvider` keeps `user` and `token` in React state. Its `login` POSTs
the credentials to /token; on a response that is ok it stores the returned
access token in state and under the localStorage key "auth_token", awaits
`fetchUserInfo`, and returns true; on a response that is not ok, or when
the fetch throws, it returns false without touching state or storage.
`fetchUserInfo` GETs /me; on ok it stores the user, otherwise it clears
the stored token, the token state and the user state. -/

/-- The user record returned by /me. -/
structure AuthUser where
  username : String
  full_name : String
  role : String
deriving DecidableEq

/-- The React state of AuthProvider. -/
structure AuthState where
  user : Option AuthUser
  token : Option String
deriving DecidableEq

/-- Outcome of the /me fetch inside `fetchUserInfo`. -/
inductive MeResult where
  | ok (u : AuthUser)
  | httpFailure
  | thrown
deriving DecidableEq

/-- The `fetchUserInfo` transition on the provider state and the
localStorage (AuthContext.tsx lines 43-66). -/
def fetchUserInfo (st : AuthState) (store : Store) : MeResult → AuthState × Store
  | .ok u => ({ st with user := some u }, store)
  | .httpFailure =>
      ({ user := none, token := none }, store.removeItem "auth_token")
  | .thrown =>
      ({ user := none, token := none }, store.removeItem "auth_token")

/-- Outcome of the /token fetch inside `login`. On an ok response the
parsed body field access_token is the stored token. -/
inductive TokenResult where
  | ok (access_token : String)
  | httpFailure
  | thrown
deriving DecidableEq

/-- The `AuthProvider.login` transition (AuthContext.tsx lines 68-97).
`me` is the outcome of the nested `fetchUserInfo` call, consulted only on
the success path. The returned Bool is the promise value of `login`. -/
def login (st : AuthState) (store : Store) (r : TokenResult) (me : MeResult) :
    (AuthState × Store) × Bool :=
  match r with
  | .ok tok =>
      let st1 : AuthState := { st with token := some tok }
      let store1 := store.setItem "auth_token" tok
      (fetchUserInfo st1 store1 me, true)
  | .httpFailure => ((st, store), false)
  | .thrown => ((st, store), false)

/-! ## The login form (src/app/login/page.tsx)

The form keeps `email`, `password`, `error`, `token` and `user` in
component state. `handleSubmit` first resets `error`, `token` and `user`
to null, then POSTs the credentials to /token and parses the JSON body.
On an ok response it stores the access token in state and under the
localStorage key "token", reads and possibly removes "postLoginRedirect",
navigates, and then fetches /me and stores its parsed body in `user`. On
a response that is not ok it stores `detail` of the body (or the fallback
"Login failed") in `error`; when the fetch or the parse throws it stores
"Network error". localStorage is touched only on the success path. -/

/-- The component state of the login form. The displayed /me response is
kept as its JSON text. -/
structure LoginFormState where
  email : String
  password : String
  error : Option String
  token : Option String
  user : Option String
deriving DecidableEq

/-- Outcome of the /token request of the form, with the parsed body. On
the success path `meBody` is the JSON of the subsequent /me response. -/
inductive FormTokenResult where
  | ok (access_token : String) (meBody : String)
  | httpFailure (detail : Option String)
  | thrown
deriving DecidableEq

/-- The `handleSubmit` transition of the login form
(src/app/login/page.tsx lines 11-48). -/
def handleSubmit (st : LoginFormState) (store : Store) (r : FormTokenResult) :
    LoginFormState × Store :=
  let st0 : LoginFormState := { st with error := none, token := none, user := none }
  match r with
  | .ok tok meBody =>
      let store1 := store.setItem "token" tok
      let redirectPath := store1.get "postLoginRedirect"
      let store2 :=
        if truthy redirectPath ∧ redirectPath ≠ some "/login" then
          store1.removeItem "postLoginRedirect"
        else store1
      ({ st0 with token := some tok, user := some meBody }, store2)
  | .httpFailure detail =>
      ({ st0 with
          error := some (if truthy detail then detail.getD "" else "Login failed") },
        store)
  | .thrown => ({ st0 with error := some "Network error" }, store)

/-! ## The reports page health check (src/app/reports/page.tsx)

The page keeps (among other state that only the report generation buttons
touch) `isMounted`, `healthStatus`, `error` and `retryCount`.
`checkSystemHealth` clears `error`, creates an AbortController whose
`abort` is scheduled 8000 ms later, and fetches /v2/reports/health with
that signal; on ok it stores the parsed health object, on a response that
is not ok it stores a message built from the status and the body text, on
an AbortError it stores a fixed timeout message, and on any other throw a
message built from the error message. The auto retry effect (lines
144-155) schedules `setRetryCount(retryCount + 1)` followed by
`checkSystemHealth()` on a 3000 ms timer whenever the page is mounted,
`healthStatus` is null, `error` is truthy and `retryCount < 2`. -/

/-- system_info of the health response. -/
structure SystemInfo where
  total_reports_generated : Nat
  reports_today : Nat
  database_connected : Bool
  available_report_types : List String
  supported_formats : List String
deriving DecidableEq

/-- capabilities of the health response. -/
structure Capabilities where
  daily_sales_reports : Bool
  customer_analytics : Bool
  weekly_business_reports : Bool
  custom_date_ranges : Bool
  automated_scheduling : Bool
  email_delivery : Bool
deriving DecidableEq

/-- The health response body (interface HealthStatus). -/
structure HealthStatus where
  status : String
  system_info : SystemInfo
  capabilities : Capabilities
deriving DecidableEq

/-- The reports page state involved in the health check flow. The fields
`isLoading`, `reportResult` and `activeTab` are touched only by the report
generation handlers and are not modelled. -/
structure ReportsPageState where
  isMounted : Bool
  healthStatus : Option HealthStatus
  error : Option String
  retryCount : Nat
deriving DecidableEq

/-- The initial reports page state: `useState(false)`, `useState(null)`,
`useState(null)`, `useState(0)`, then the mount effect sets `isMounted`
to true. -/
def reportsInitialState : ReportsPageState :=
  { isMounted := true, healthStatus := none, error := none, retryCount := 0 }

/-- Outcome of the /v2/reports/health fetch. -/
inductive HealthFetchResult where
  /-- response.ok with the parsed health object. -/
  | ok (h : HealthStatus)
  /-- response not ok, with status code and body text. -/
  | httpFailure (status : Nat) (errorText : String)
  /-- the fetch rejected with an AbortError (the 8000 ms abort timer
  fired). -/
  | aborted
  /-- the fetch rejected with some other Error with message `msg`. -/
  | thrown (msg : String)
deriving DecidableEq

/-- The `checkSystemHealth` transition (reports/page.tsx lines 157-200). -/
def checkSystemHealth (s : ReportsPageState) : HealthFetchResult → ReportsPageState
  | .ok h => { s with healthStatus := some h, error := none }
  | .httpFailure status txt =>
      { s with error := some ("Report system health check failed (" ++
          toString status ++ "): " ++ txt) }
  | .aborted =>
      { s with error := some "Health check timed out - please try the refresh button" }
  | .thrown msg =>
      { s with error := some ("Failed to connect to report system: " ++ msg) }

/-- The guard of the auto retry effect (reports/page.tsx lines 145-155):
`isMounted && !healthStatus && error && retryCount < 2`. When it holds, a
3000 ms timer re-runs the health check with no user action. -/
def autoRetryFires (s : ReportsPageState) : Bool :=
  s.isMounted && s.healthStatus.isNone && truthy s.error &&
    decide (s.retryCount < 2)

/-- What the 3000 ms retry timer does when it fires:
`setRetryCount(retryCount + 1)` then `checkSystemHealth()`, whose fetch
settles with outcome `r`. -/
def autoRetryStep (s : ReportsPageState) (r : HealthFetchResult) : ReportsPageState :=
  checkSystemHealth { s with retryCount := s.retryCount + 1 } r

/-- The refresh button handler (reports/page.tsx lines 440-444):
`setRetryCount(0)`, `setError(null)`, `checkSystemHealth()`. -/
def refreshButton (s : ReportsPageState) (r : HealthFetchResult) : ReportsPageState :=
  checkSystemHealth { s with retryCount := 0, error := none } r

/-! ## Every fetch call site of the frontend

One record per textual `fetch(...)` call in the frontend sources, with the
path of the requested URL (its template prefix for the parametrized
sites), the HTTP method, whether an abort signal is attached to the
request, and the delay of an abort timer when one is armed. Only the
reports page health check attaches a signal (reports/page.tsx lines
165-174); no other call site mentions AbortController, signal or an
aborting timeout. -/

/-- A fetch call site of the frontend source. -/
structure FetchSite where
  component : String
  urlPath : String
  method : String
  hasAbortSignal : Bool
  abortTimeoutMs : Option Nat
deriving DecidableEq

/-- The one call site that attaches an abort signal: the reports page
health check, with its 8000 ms abort timer. -/
def checkSystemHealthSite : FetchSite :=
  { component := "ReportsPage.checkSystemHealth", urlPath := "/v2/reports/health",
    method := "GET", hasAbortSignal := true, abortTimeoutMs := some 8000 }

/-- All fetch call sites of the frontend sources. -/
def frontendFetchSites : List FetchSite :=
  [ { component := "useApiCall", urlPath := "(hook url)", method := "GET",
      hasAbortSignal := false, abortTimeoutMs := none },
    { component := "AuthContext.fetchUserInfo", urlPath := "/me", method := "GET",
      hasAbortSignal := false, abortTimeoutMs := none },
    { component := "AuthContext.login", urlPath := "/token", method := "POST",
      hasAbortSignal := false, abortTimeoutMs := none },
    { component := "LoginPage.handleSubmit", urlPath := "/token", method := "POST",
      hasAbortSignal := false, abortTimeoutMs := none },
    { component := "LoginPage.handleSubmit", urlPath := "/me", method := "GET",
      hasAbortSignal := false, abortTimeoutMs := none },
    { component := "RegisterPage.handleSubmit", urlPath := "/register", method := "POST",
      hasAbortSignal := false, abortTimeoutMs := none },
    { component := "Week5Demo.testAPI", urlPath := "(endpoint)", method := "GET",
      hasAbortSignal := false, abortTimeoutMs := none },
    { component := "BackendAPIDemo.testEndpoint", urlPath := "(endpoint)", method := "GET",
      hasAbortSignal := false, abortTimeoutMs := none },
    { component := "AdminLoginPage.handleSubmit", urlPath := "/token", method := "POST",
      hasAbortSignal := false, abortTimeoutMs := none },
    { component := "AdminLoginPage.handleSubmit", urlPath := "/me", method := "GET",
      hasAbortSignal := false, abortTimeoutMs := none },
    { component := "CustomersPage", urlPath := "/customers", method := "GET",
      hasAbortSignal := false, abortTimeoutMs := none },
    { component := "CustomersPage", urlPath := "/orders", method := "GET",
      hasAbortSignal := false, abortTimeoutMs := none },
    checkSystemHealthSite,
    { component := "ReportsPage.generateReport", urlPath := "/v2/reports/test",
      method := "GET", hasAbortSignal := false, abortTimeoutMs := none },
    { component := "ReportsPage.generateDetailedReport", urlPath := "/v2/reports/(type)",
      method := "GET", hasAbortSignal := false, abortTimeoutMs := none },
    { component := "ReportsPage.exportReport", urlPath := "/v2/reports/export",
      method := "POST", hasAbortSignal := false, abortTimeoutMs := none },
    { component := "ReportsPage.emailReport", urlPath := "/v2/reports/email",
      method := "POST", hasAbortSignal := false, abortTimeoutMs := none },
    { component := "NotificationsPage.fetchHealth", urlPath := "/v2/notifications/health",
      method := "GET", hasAbortSignal := false, abortTimeoutMs := none },
    { component := "NotificationsPage.fetchStats", urlPath := "/v2/notifications/stats",
      method := "GET", hasAbortSignal := false, abortTimeoutMs := none },
    { component := "NotificationsPage.testNotifications", urlPath := "/v2/notifications/test",
      method := "POST", hasAbortSignal := false, abortTimeoutMs := none },
    { component := "NotificationsPage.testAlertIntegration",
      urlPath := "/v2/alerts/demo-with-notifications", method := "GET",
      hasAbortSignal := false, abortTimeoutMs := none },
    { component := "ShopifyPage.checkConnectionStatus",
      urlPath := "/v2/shopify/connection-status", method := "GET",
      hasAbortSignal := false, abortTimeoutMs := none },
    { component := "ShopifyPage.getOAuthUrl", urlPath := "/v2/shopify/oauth-url",
      method := "GET", hasAbortSignal := false, abortTimeoutMs := none },
    { component := "ShopifyPage.setupDemo", urlPath := "/v2/shopify/demo-setup",
      method := "POST", hasAbortSignal := false, abortTimeoutMs := none },
    { component := "CLVCharts", urlPath := "/v2/analytics/clv/bulk", method := "GET",
      hasAbortSignal := false, abortTimeoutMs := none },
    { component := "CLVCharts", urlPath := "/v2/analytics/clv/segments", method := "GET",
      hasAbortSignal := false, abortTimeoutMs := none },
    { component := "CLVCharts", urlPath := "/v2/analytics/clv/platform-summary",
      method := "GET", hasAbortSignal := false, abortTimeoutMs := none },
    { component := "OrderItemsPage", urlPath := "/order_items", method := "GET",
      hasAbortSignal := false, abortTimeoutMs := none },
    { component := "OrderItemsPage", urlPath := "/v2/analytics/cross-platform/performance",
      method := "GET", hasAbortSignal := false, abortTimeoutMs := none },
    { component := "OrderItemsPage", urlPath := "/v2/analytics/cross-platform/kpis",
      method := "GET", hasAbortSignal := false, abortTimeoutMs := none },
    { component := "OrderItemsPage", urlPath := "/v2/analytics/cross-platform/recommendations",
      method := "GET", hasAbortSignal := false, abortTimeoutMs := none },
    { component := "OrderItemsPage", urlPath := "/customer_segments", method := "GET",
      hasAbortSignal := false, abortTimeoutMs := none },
    { component := "MLCLVDashboard", urlPath := "/v2/analytics/clv/bulk", method := "GET",
      hasAbortSignal := false, abortTimeoutMs := none },
    { component := "ForecastingCharts.fetchForecastData",
      urlPath := "/v2/forecasting/revenue/forecast", method := "GET",
      hasAbortSignal := false, abortTimeoutMs := none },
    { component := "ForecastingCharts.fetchTrendData",
      urlPath := "/v2/forecasting/revenue/trends", method := "GET",
      hasAbortSignal := false, abortTimeoutMs := none },
    { component := "ForecastingCharts.fetchSeasonalityData",
      urlPath := "/v2/forecasting/revenue/seasonality", method := "GET",
      hasAbortSignal := false, abortTimeoutMs := none },
    { component := "CrossPlatformDashboard", urlPath := "/v2/analytics/cross-platform/overview",
      method := "GET", hasAbortSignal := false, abortTimeoutMs := none },
    { component := "CrossPlatformDashboard", urlPath := "/v2/analytics/cross-platform/performance",
      method := "GET", hasAbortSignal := false, abortTimeoutMs := none },
    { component := "CrossPlatformDashboard", urlPath := "/v2/analytics/cross-platform/kpis",
      method := "GET", hasAbortSignal := false, abortTimeoutMs := none },
    { component := "CrossPlatformDashboard", urlPath := "/v2/analytics/cross-platform/recommendations",
      method := "GET", hasAbortSignal := false, abortTimeoutMs := none },
    { component := "DashboardLayout", urlPath := "/v2/analytics/segmentation/profiles",
      method := "GET", hasAbortSignal := false, abortTimeoutMs := none },
    { component := "SegmentationAnalytics", urlPath := "/v2/analytics/segmentation/summary",
      method := "GET", hasAbortSignal := false, abortTimeoutMs := none },
    { component := "SegmentationAnalytics", urlPath := "/v2/analytics/segmentation/rfm",
      method := "GET", hasAbortSignal := false, abortTimeoutMs := none },
    { component := "SegmentationAnalytics", urlPath := "/v2/analytics/segmentation/ml-clusters",
      method := "GET", hasAbortSignal := false, abortTimeoutMs := none },
    { component := "CustomerSegmentationPage", urlPath := "/v2/analytics/segmentation/summary",
      method := "GET", hasAbortSignal := false, abortTimeoutMs := none } ]

/-! ## Every timer of the frontend (setTimeout and setInterval call sites)

One record per textual setTimeout or setInterval call in the frontend
sources. `firesFetch` says whether the scheduled callback issues a network
request when the timer fires; `errorGuarded` says whether the effect that
arms the timer is conditioned on an error state. The six timers are: the
reports page initial 500 ms delayed health check (reports/page.tsx lines
131-142, guarded only by isMounted), its 3000 ms auto retry (lines
144-155, guarded by a truthy error, a null healthStatus and retryCount
< 2), its 8000 ms abort timer (line 166, whose callback cancels a request
rather than issuing one), the refetch interval of useAutoRefresh
(useAnalytics.ts lines 188-205, default 30000 ms, armed whenever its
intervalMs argument is positive, with no condition on any error state),
and the two 2000 ms navigation redirects of the order items page
(order_items/page.tsx lines 121 and 137, which fetch nothing). -/

/-- A setTimeout or setInterval call site of the frontend source. -/
structure TimerSite where
  component : String
  delayMs : Nat
  repeating : Bool
  firesFetch : Bool
  errorGuarded : Bool
deriving DecidableEq

/-- The initial delayed health check timer of the reports page. -/
def reportsInitialHealthTimer : TimerSite :=
  { component := "ReportsPage.initialHealthCheck", delayMs := 500,
    repeating := false, firesFetch := true, errorGuarded := false }

/-- The auto retry timer of the reports page health check. -/
def reportsAutoRetryTimer : TimerSite :=
  { component := "ReportsPage.autoRetryEffect", delayMs := 3000,
    repeating := false, firesFetch := true, errorGuarded := true }

/-- The refetch interval of useAutoRefresh, at its default 30000 ms. -/
def autoRefreshIntervalTimer : TimerSite :=
  { component := "useAutoRefresh", delayMs := 30000,
    repeating := true, firesFetch := true, errorGuarded := false }

/-- All setTimeout and setInterval call sites of the frontend sources. -/
def frontendTimerSites : List TimerSite :=
  [ reportsInitialHealthTimer,
    reportsAutoRetryTimer,
    { component := "ReportsPage.checkSystemHealth.abortTimer", delayMs := 8000,
      repeating := false, firesFetch := false, errorGuarded := false },
    autoRefreshIntervalTimer,
    { component := "OrderItemsPage.redirectToSegmentation", delayMs := 2000,
      repeating := false, firesFetch := false, errorGuarded := false },
    { component := "OrderItemsPage.redirectToLogin", delayMs := 2000,
      repeating := false, firesFetch := false, errorGuarded := false } ]

/-- The arming guard of the useAutoRefresh effect (useAnalytics.ts lines
194-202): the effect returns early when intervalMs <= 0, otherwise it
arms a setInterval that calls result.refetch(); the default intervalMs is
30000. -/
def useAutoRefreshArmed (intervalMs : Int) : Bool := !(decide (intervalMs ≤ 0))

/-- One firing of the useAutoRefresh interval over a hook in state `s`:
refetch re-runs fetchData whatever the state holds, in particular also
when error is set; when the interval is not armed no firing happens. -/
def autoRefreshTick (T : Type) (intervalMs : Int) (s : ApiState T)
    (r : FetchResult T) : ApiState T :=
  if useAutoRefreshArmed intervalMs then fetchData s r else s

/-! ## The hook URLs (src/hooks/useAnalytics.ts lines 63-185)

Each data fetching hook builds a URL from a fixed path, appending a query
string produced by URLSearchParams when at least one filter is truthy.
Percent encoding of the values is not modelled. -/

/-- The filters record (src/types/analytics.ts, interface
AnalyticsFilters); all fields are optional. -/
structure AnalyticsFilters where
  platform : Option String
  dateRange : Option (String × String)
  category : Option String
deriving DecidableEq

/-- URLSearchParams.toString over the appended pairs. -/
def queryString (ps : List (String × String)) : String :=
  String.intercalate "&" (ps.map (fun p => p.1 ++ "=" ++ p.2))

/-- The pairs appended for a hook that checks `filters?.platform`:
the platform pair is appended exactly when the field is truthy. -/
def platformParams (filters : Option AnalyticsFilters) : List (String × String) :=
  match filters with
  | some f => if truthy f.platform then [("platform", f.platform.getD "")] else []
  | none => []

/-- The pairs appended for a hook that checks `filters?.platform` and
`filters?.category`, in that order. -/
def platformCategoryParams (filters : Option AnalyticsFilters) : List (String × String) :=
  match filters with
  | some f =>
      (if truthy f.platform then [("platform", f.platform.getD "")] else []) ++
        (if truthy f.category then [("category", f.category.getD "")] else [])
  | none => []

/-- The template `base + (qs ? "?" + qs : "")` every hook uses. -/
def urlWithQuery (base : String) (ps : List (String × String)) : String :=
  base ++ (if queryString ps == "" then "" else "?" ++ queryString ps)

/-- URL of useUniversalAnalytics. -/
def useUniversalAnalyticsUrl (filters : Option AnalyticsFilters) : String :=
  urlWithQuery "/universal/analytics/overview" (platformParams filters)

/-- URL of useUniversalCustomers. -/
def useUniversalCustomersUrl (filters : Option AnalyticsFilters) : String :=
  urlWithQuery "/universal/customers" (platformParams filters)

/-- URL of useUniversalProducts. -/
def useUniversalProductsUrl (filters : Option AnalyticsFilters) : String :=
  urlWithQuery "/universal/products" (platformCategoryParams filters)

/-- URL of useUniversalOrders. -/
def useUniversalOrdersUrl (filters : Option AnalyticsFilters) : String :=
  urlWithQuery "/universal/orders" (platformParams filters)

/-- URL of useCustomerInsights. -/
def useCustomerInsightsUrl (customerExternalId : String) : String :=
  "/v2/analytics/customer-insights/" ++ customerExternalId

/-- URL of useProductPerformance. -/
def useProductPerformanceUrl (filters : Option AnalyticsFilters) : String :=
  urlWithQuery "/v2/analytics/product-performance" (platformCategoryParams filters)

/-- URL of useCrossPlatformInsights. -/
def useCrossPlatformInsightsUrl : String := "/v2/analytics/cross-platform-insights"

/-- URL of useCustomerSegments. -/
def useCustomerSegmentsUrl : String := "/v2/analytics/customer-segments-detailed"

/-! ## Chart utilities (src/components/charts/ChartUtils.tsx)

`calculateGrowth` guards division by a zero previous value.
`getTopItems` calls `data.sort((a, b) => b.value - a.value).slice(0, n)`:
JavaScript Array.prototype.sort is an in place, stable sort that reorders
the receiver array itself and returns it, so after the call the array of
the caller holds its elements in non increasing value order; `slice` then
copies the first n elements. The in place sort is modelled by a stable
insertion sort with the same ordering. JavaScript numbers are modelled as
rationals. -/

/-- calculateGrowth (ChartUtils.tsx lines 101-104). -/
def calculateGrowth (current previous : Rat) : Rat :=
  if previous = 0 then (if current > 0 then 100 else 0)
  else ((current - previous) / previous) * 100

/-- An item with a numeric value field, as consumed by `getTopItems`
(generic parameter T extends value : number). -/
structure Item where
  label : String
  value : Rat
deriving DecidableEq

/-- The comparator of `getTopItems` as an ordering relation: a is sorted
before b exactly when `b.value - a.value ≤ 0`, that is when
`b.value ≤ a.value`. -/
def itemGE (a b : Item) : Prop := b.value ≤ a.value

instance : DecidableRel itemGE := fun a b => Rat.instDecidableLe b.value a.value

instance : IsTotal Item itemGE := ⟨fun a b => le_total b.value a.value⟩

instance : IsTrans Item itemGE := ⟨fun _ _ _ hab hbc => le_trans hbc hab⟩

/-- The contents of the caller array after `data.sort((a, b) => b.value -
a.value)` ran: the same elements, stably reordered into non increasing
value order. -/
def sortValueDesc (data : List Item) : List Item :=
  data.insertionSort itemGE

/-- The return value of `getTopItems data n` (ChartUtils.tsx lines
107-111): the first n elements of the sorted array. -/
def getTopItems (data : List Item) (n : Nat) : List Item :=
  (sortValueDesc data).take n

/-- The product performance record (src/types/analytics.ts). -/
structure ProductPerformance where
  name : String
  category : String
  list_price : Rat
  sku : String
  platform : String
  times_purchased : Nat
  total_units_sold : Nat
  total_revenue : Rat
  avg_selling_price : Rat
  lowest_selling_price : Rat
  highest_selling_price : Rat
  unique_customers : Nat
  unique_orders : Nat
  first_sale_date : String
  last_sale_date : String
  discount_rate : Rat
  repeat_purchase_rate : Rat
deriving DecidableEq

/-- The comparator of the ProductRevenueChart sort:
`(a, b) => b.total_revenue - a.total_revenue`. -/
def productRevGE (a b : ProductPerformance) : Prop :=
  b.total_revenue ≤ a.total_revenue

instance : DecidableRel productRevGE :=
  fun a b => Rat.instDecidableLe b.total_revenue a.total_revenue

instance : IsTotal ProductPerformance productRevGE :=
  ⟨fun a b => le_total b.total_revenue a.total_revenue⟩

instance : IsTrans ProductPerformance productRevGE :=
  ⟨fun _ _ _ hab hbc => le_trans hbc hab⟩

/-- The contents of the `products` array returned by useProductPerformance
after ProductRevenueChart evaluated `products.sort((a, b) =>
b.total_revenue - a.total_revenue).slice(0, 10)` (ProductCharts lines
63-65): the sort step mutates the hook array in place. -/
def productsAfterRevenueChart (products : List ProductPerformance) :
    List ProductPerformance :=
  products.insertionSort productRevGE

/-! ## The remaining in place sorts of parsed arrays

Besides ProductRevenueChart and getTopItems, three more components call
Array.prototype.sort on an array that holds parsed response entities:
ProductVolumeChart sorts the products array of useProductPerformance by
total_units_sold, TopCustomersBarChart sorts the customers array of
useUniversalCustomers by total_spent, and CLVConfidenceChart sorts its
data prop (the array of the clv/bulk response) by clv. The chart utility
transformForLineChart also sorts its argument array in place, ascending
by the timestamp of its date strings. Every other sort call site of the
frontend receives a freshly constructed array (an Object.entries result
or a locally assembled list); the inventory below records all of them. -/

/-- The customer record (src/types/analytics.ts, interface Customer). -/
structure Customer where
  id : Nat
  external_id : String
  platform : String
  email : String
  first_name : String
  last_name : String
  full_name : String
  total_spent : Rat
  orders_count : Nat
  average_order_value : Rat
  last_order_date : String
  is_active : Bool
deriving DecidableEq

/-- confidence_range of a CLV record (CLVCharts.tsx, interface
CLVMetrics). -/
structure ConfidenceRange where
  low : Rat
  high : Rat
deriving DecidableEq

/-- The nested metrics of a CLV record. -/
structure CLVCustomerMetrics where
  avg_order_value : Rat
  purchase_frequency : Rat
  total_orders : Nat
  total_spent : Rat
  days_since_last_order : Nat
deriving DecidableEq

/-- The CLV record (CLVCharts.tsx, interface CLVMetrics). -/
structure CLVMetrics where
  customer_id : String
  platform : String
  clv : Rat
  confidence_range : ConfidenceRange
  risk_score : Rat
  risk_level : String
  segment : String
  metrics : CLVCustomerMetrics
deriving DecidableEq

/-- A point of a line chart, as taken by transformForLineChart. -/
structure LineChartPoint where
  date : String
  value : Rat
deriving DecidableEq

/-- The contents of an array after the JavaScript in place sort
arr.sort((a, b) => key(b) - key(a)) ran: its elements stably reordered
into non increasing key order. -/
def sortInPlaceByDesc {α β : Type} [LinearOrder β] (key : α → β) (l : List α) :
    List α :=
  @List.insertionSort α (fun a b => key b ≤ key a)
    (fun a b => inferInstanceAs (Decidable (key b ≤ key a))) l

/-- The contents of an array after an in place sort with an ascending
comparator (a, b) => key(a) - key(b). -/
def sortInPlaceByAsc {α β : Type} [LinearOrder β] (key : α → β) (l : List α) :
    List α :=
  @List.insertionSort α (fun a b => key a ≤ key b)
    (fun a b => inferInstanceAs (Decidable (key a ≤ key b))) l

/-- The products array of useProductPerformance after ProductVolumeChart
evaluated products.sort((a, b) => b.total_units_sold - a.total_units_sold)
.slice(0, 10) (ProductCharts lines 147-149): the sort step mutates the
hook array in place. -/
def productsAfterVolumeChart (products : List ProductPerformance) :
    List ProductPerformance :=
  sortInPlaceByDesc (fun p => p.total_units_sold) products

/-- The customers array of useUniversalCustomers after TopCustomersBarChart
evaluated customers.sort((a, b) => b.total_spent - a.total_spent)
.slice(0, 10) (ForecastingCharts.tsx lines 599-601). -/
def customersAfterTopCustomersChart (customers : List Customer) : List Customer :=
  sortInPlaceByDesc (fun c => c.total_spent) customers

/-- The fetched CLV array after CLVConfidenceChart evaluated
data.sort((a, b) => b.clv - a.clv).slice(0, 20) (CLVCharts.tsx lines
231-234); the data prop holds the array of the clv/bulk response. -/
def clvDataAfterConfidenceChart (data : List CLVMetrics) : List CLVMetrics :=
  sortInPlaceByDesc (fun m => m.clv) data

/-- The argument array of transformForLineChart after its in place
data.sort((a, b) => new Date(a.date).getTime() - new Date(b.date).getTime())
(ChartUtils.tsx lines 91-98), for a given timestamp reading getTime of
the date strings (Date parsing itself is not modelled). -/
def dataAfterLineChartTransform (getTime : String → Rat)
    (data : List LineChartPoint) : List LineChartPoint :=
  sortInPlaceByAsc (fun p => getTime p.date) data

/-- What array a sort call site operates on. -/
inductive SortReceiver where
  /-- an entity array returned by a data fetching hook, or a fetched
  response array passed down as a prop. -/
  | hookArray
  /-- the array argument of a chart utility. -/
  | argumentArray
  /-- an array freshly constructed inside the component (an
  Object.entries result or a locally assembled list). -/
  | freshArray
deriving DecidableEq

/-- An Array.prototype.sort call site of the frontend source. -/
structure SortSite where
  component : String
  sortKey : String
  receiver : SortReceiver
deriving DecidableEq

/-- All Array.prototype.sort call sites of the frontend sources. -/
def frontendSortSites : List SortSite :=
  [ { component := "ProductRevenueChart", sortKey := "total_revenue desc",
      receiver := .hookArray },
    { component := "ProductVolumeChart", sortKey := "total_units_sold desc",
      receiver := .hookArray },
    { component := "RevenueTrendChart", sortKey := "date keys asc (localeCompare)",
      receiver := .freshArray },
    { component := "OrderVolumeChart", sortKey := "date keys asc (localeCompare)",
      receiver := .freshArray },
    { component := "AverageOrderValueChart", sortKey := "date keys asc (localeCompare)",
      receiver := .freshArray },
    { component := "transformForLineChart", sortKey := "date asc (getTime)",
      receiver := .argumentArray },
    { component := "getTopItems", sortKey := "value desc",
      receiver := .argumentArray },
    { component := "CLVConfidenceChart", sortKey := "clv desc",
      receiver := .hookArray },
    { component := "ForecastChart", sortKey := "date asc (getTime)",
      receiver := .freshArray },
    { component := "TopCustomersBarChart", sortKey := "total_spent desc",
      receiver := .hookArray },
    { component := "CustomerGrowthChart", sortKey := "date keys asc (localeCompare)",
      receiver := .freshArray } ]

/-- The components whose sort receives a parsed (hook returned or
argument) array; each is modelled by one of the transitions above. -/
def modelledSortComponents : List String :=
  ["ProductRevenueChart", "ProductVolumeChart", "TopCustomersBarChart",
    "CLVConfidenceChart", "getTopItems", "transformForLineChart"]

/-! ## Path shape predicates

`specPathForm` is written from the words of the specification (paths like
/v2/analytics/*, /v2/reports/*, /token, /me) as the refinement target for
the claim about hook URLs; `repoPathForm` additionally admits the
/universal/* paths that the universal hooks actually use. -/

/-- Whether `pre` is a prefix of the string `s`. -/
def strHasPathPrefix (pre s : String) : Bool :=
  List.isPrefixOf pre.data s.data

/-- The path shapes named by the specification. -/
def specPathForm (p : String) : Bool :=
  strHasPathPrefix "/v2/analytics/" p || strHasPathPrefix "/v2/reports/" p ||
    p == "/token" || p == "/me"

/-- The path shapes the hooks actually produce. -/
def repoPathForm (p : String) : Bool :=
  specPathForm p || strHasPathPrefix "/universal/" p

/-! ## Supporting lemmas -/

theorem find?_filter_of_imp {α : Type _} (l : List α) (q p : α → Bool)
    (h : ∀ x, q x = true → p x = true) :
    (l.filter p).find? q = l.find? q := by
  induction l with
  | nil => rfl
  | cons a l ih =>
    by_cases hp : p a = true
    · by_cases hq : q a = true
      · simp [List.filter_cons, List.find?_cons, hp, hq]
      · simp [List.filter_cons, List.find?_cons, hp, hq, ih]
    · have hq : ¬ q a = true := fun hqa => hp (h a hqa)
      simp [List.filter_cons, List.find?_cons, hp, hq, ih]

theorem Store.get_setItem_self (s : Store) (k v : String) :
    (s.setItem k v).get k = some v := by
  unfold Store.setItem Store.get
  rw [List.find?_append]
  have h1 : (List.filter (fun p => p.1 != k) s).find? (fun p => p.1 == k) = none := by
    rw [List.find?_eq_none]
    intro a ha hbeq
    rcases List.mem_filter.mp ha with ⟨_, hne⟩
    simp only [bne_iff_ne, ne_eq] at hne
    exact hne (by simpa using hbeq)
  rw [h1]
  simp [List.find?]

theorem Store.get_setItem_ne (s : Store) (k k' v : String) (h : k' ≠ k) :
    (s.setItem k v).get k' = s.get k' := by
  unfold Store.setItem Store.get
  rw [List.find?_append]
  rw [find?_filter_of_imp s (fun p => p.1 == k') (fun p => p.1 != k)
    (fun x hx => by
      simp only [beq_iff_eq] at hx
      simp [bne_iff_ne, hx, h])]
  cases hfind : s.find? (fun p => p.1 == k') with
  | some a => rfl
  | none =>
    have hk : (k == k') = false := by
      simp [beq_iff_eq]
      exact fun he => h he.symm
    simp [List.find?, hk]

theorem Store.get_removeItem_ne (s : Store) (k k' : String) (h : k' ≠ k) :
    (s.removeItem k).get k' = s.get k' := by
  unfold Store.removeItem Store.get
  rw [find?_filter_of_imp s (fun p => p.1 == k') (fun p => p.1 != k)
    (fun x hx => by
      simp only [beq_iff_eq] at hx
      simp [bne_iff_ne, hx, h])]

theorem strHasPathPrefix_append (pre base suffix : String)
    (h : strHasPathPrefix pre base = true) :
    strHasPathPrefix pre (base ++ suffix) = true := by
  unfold strHasPathPrefix at *
  rw [String.data_append]
  exact List.isPrefixOf_iff_prefix.mpr
    ((List.isPrefixOf_iff_prefix.mp h).trans (List.prefix_append _ _))

theorem repoPathForm_of_universal (base suffix : String)
    (h : strHasPathPrefix "/universal/" base = true) :
    repoPathForm (base ++ suffix) = true := by
  unfold repoPathForm
  rw [strHasPathPrefix_append "/universal/" base suffix h]
  simp

theorem repoPathForm_of_v2_analytics (base suffix : String)
    (h : strHasPathPrefix "/v2/analytics/" base = true) :
    repoPathForm (base ++ suffix) = true := by
  unfold repoPathForm specPathForm
  rw [strHasPathPrefix_append "/v2/analytics/" base suffix h]
  simp

theorem sortInPlaceByDesc_perm_sorted {α β : Type} [LinearOrder β] (key : α → β)
    (l : List α) :
    (sortInPlaceByDesc key l).Perm l ∧
    (sortInPlaceByDesc key l).Pairwise (fun a b => key b ≤ key a) :=
  ⟨@List.perm_insertionSort α (fun a b => key b ≤ key a)
      (fun a b => inferInstanceAs (Decidable (key b ≤ key a))) l,
    @List.sorted_insertionSort α (fun a b => key b ≤ key a)
      (fun a b => inferInstanceAs (Decidable (key b ≤ key a)))
      ⟨fun a b => le_total (key b) (key a)⟩
      ⟨fun _ _ _ h1 h2 => le_trans h2 h1⟩ l⟩

theorem sortInPlaceByAsc_perm_sorted {α β : Type} [LinearOrder β] (key : α → β)
    (l : List α) :
    (sortInPlaceByAsc key l).Perm l ∧
    (sortInPlaceByAsc key l).Pairwise (fun a b => key a ≤ key b) :=
  ⟨@List.perm_insertionSort α (fun a b => key a ≤ key b)
      (fun a b => inferInstanceAs (Decidable (key a ≤ key b))) l,
    @List.sorted_insertionSort α (fun a b => key a ≤ key b)
      (fun a b => inferInstanceAs (Decidable (key a ≤ key b)))
      ⟨fun a b => le_total (key a) (key b)⟩
      ⟨fun _ _ _ h1 h2 => le_trans h1 h2⟩ l⟩

/-! ## Claim theorems -/

/-- C5: for every response that is not ok, `useApiCall` sets `error` to
exactly the string "HTTP error! status: " followed by the status code,
leaves `data` at its previous value, and sets `loading` to false; on an ok
response it sets `data` to the parsed body and leaves `error` null. The
initial `data` is null, so without a prior success `data` stays null
through failures. -/
theorem useApiCall_response_handling (T : Type) (s : ApiState T) (status : Nat)
    (body : T) :
    fetchData s (.httpFailure status) =
      { data := s.data, loading := false,
        error := some ("HTTP error! status: " ++ toString status) } ∧
    fetchData s (.ok body) =
      { data := some body, loading := false, error := none } := by
  exact ⟨rfl, rfl⟩

/-- C8: the hook state of `useApiCall` starts with `loading = true`; every
fetch attempt begins by setting `loading := true` and resetting `error` to
null, and however the attempt settles (ok response, HTTP failure, or a
raised error) `loading` is false afterwards. -/
theorem useApiCall_loading_lifecycle (T : Type) (s : ApiState T) (r : FetchResult T) :
    (initialApiState T).loading = true ∧
    (fetchDataStart s).loading = true ∧
    (fetchDataStart s).error = none ∧
    (fetchData s r).loading = false := by
  refine ⟨rfl, rfl, rfl, ?_⟩
  cases r <;> rfl

/-- C9: `getTopItems data n` returns min(n, data.length) elements, all
drawn from `data`, in non increasing value order, and every element of
`data` that is not returned has value at most that of every returned
element (in particular at most the smallest returned value). -/
theorem getTopItems_spec (data : List Item) (n : Nat) :
    (getTopItems data n).length = min n data.length ∧
    (∀ x ∈ getTopItems data n, x ∈ data) ∧
    (getTopItems data n).Sorted itemGE ∧
    (∀ x ∈ data, x ∉ getTopItems data n →
      ∀ y ∈ getTopItems data n, x.value ≤ y.value) := by
  have hperm : (sortValueDesc data).Perm data := List.perm_insertionSort itemGE data
  have hsorted : (sortValueDesc data).Sorted itemGE :=
    List.sorted_insertionSort itemGE data
  refine ⟨?_, ?_, ?_, ?_⟩
  · simp [getTopItems, List.length_take, sortValueDesc, List.length_insertionSort]
  · intro x hx
    exact hperm.mem_iff.mp (List.mem_of_mem_take hx)
  · exact List.Pairwise.sublist (List.take_sublist n (sortValueDesc data)) hsorted
  · intro x hx hnx y hy
    have hx' : x ∈ (sortValueDesc data).take n ++ (sortValueDesc data).drop n := by
      rw [List.take_append_drop]
      exact hperm.mem_iff.mpr hx
    rcases List.mem_append.mp hx' with hmem | hmem
    · exact absurd hmem hnx
    · have hs2 : ((sortValueDesc data).take n ++ (sortValueDesc data).drop n).Pairwise
          itemGE := by
        rw [List.take_append_drop]
        exact hsorted
      exact (List.pairwise_append.mp hs2).2.2 y hy x hmem

/-- C9 witness: on the list [(a,1), (b,3), (c,2)] with n = 2 the element
a with value 1 is not returned, b with value 3 is, and 1 is at most 3. -/
theorem getTopItems_spec_witness :
    (Item.mk "a" 1).value ≤ (Item.mk "b" 3).value :=
  (getTopItems_spec [Item.mk "a" 1, Item.mk "b" 3, Item.mk "c" 2] 2).2.2.2
    (Item.mk "a" 1) (by decide) (by decide) (Item.mk "b" 3) (by decide)

/-- C10: `calculateGrowth` is total and never divides by zero: when the
previous value is 0 it returns 100 for a positive current value and 0
otherwise, and when the previous value is nonzero it returns
((current - previous) / previous) * 100. -/
theorem calculateGrowth_total_spec (current previous : Rat) :
    (previous = 0 → calculateGrowth current previous =
      (if current > 0 then 100 else 0)) ∧
    (previous ≠ 0 → calculateGrowth current previous =
      ((current - previous) / previous) * 100) := by
  constructor
  · intro h
    simp [calculateGrowth, h]
  · intro h
    simp [calculateGrowth, h]

/-- C10 witness: calculateGrowth 5 0 = 100 on the zero branch and
calculateGrowth 7 2 follows the formula on the nonzero branch. -/
theorem calculateGrowth_total_spec_witness :
    calculateGrowth 5 0 = 100 ∧
    calculateGrowth 7 2 = ((7 : Rat) - 2) / 2 * 100 := by
  constructor
  · have h := (calculateGrowth_total_spec 5 0).1 rfl
    rw [if_pos (by decide : (5 : Rat) > 0)] at h
    exact h
  · exact (calculateGrowth_total_spec 7 2).2 (by decide)

/-- C2: `AuthProvider.login` writes the access token only under the
localStorage key "auth_token", while `useApiCall` reads the distinct key
"token"; hence from any storage in which "token" is unset (in particular
a fresh browser session), after any run of `login` the key "token" is
still unset and the headers `useApiCall` builds carry no Authorization
header, so a session authenticated through AuthProvider never
authenticates the requests of the analytics hooks. -/
theorem authProvider_session_never_authorizes_hooks (st : AuthState) (store : Store)
    (r : TokenResult) (me : MeResult) (h : store.get "token" = none) :
    ((login st store r me).1.2.get "token" = none ∧
      hasAuthHeader (useApiCallHeaders (login st store r me).1.2) = false) := by
  have key : ∀ s' : Store, s'.get "token" = none →
      hasAuthHeader (useApiCallHeaders s') = false := by
    intro s' h'
    simp [useApiCallHeaders, hasAuthHeader, truthy, h']
  have hne : ("token" : String) ≠ "auth_token" := by decide
  have hstore : (login st store r me).1.2.get "token" = none := by
    cases r with
    | ok tok =>
      have h1 : ((store.setItem "auth_token" tok).get "token") = none := by
        rw [Store.get_setItem_ne store "auth_token" "token" tok hne]
        exact h
      cases me with
      | ok u => simpa [login, fetchUserInfo] using h1
      | httpFailure =>
        show (((store.setItem "auth_token" tok).removeItem "auth_token").get "token")
          = none
        rw [Store.get_removeItem_ne _ "auth_token" "token" hne]
        exact h1
      | thrown =>
        show (((store.setItem "auth_token" tok).removeItem "auth_token").get "token")
          = none
        rw [Store.get_removeItem_ne _ "auth_token" "token" hne]
        exact h1
    | httpFailure => simpa [login] using h
    | thrown => simpa [login] using h
  exact ⟨hstore, key _ hstore⟩

/-- C2 witness: from an empty storage, a fully successful AuthProvider
login leaves "token" unset and the hook headers without Authorization. -/
theorem authProvider_session_never_authorizes_hooks_witness :
    ((login (AuthState.mk none none) Store.empty (.ok "tok123")
        (.ok (AuthUser.mk "admin" "Admin" "admin"))).1.2.get "token" = none ∧
      hasAuthHeader (useApiCallHeaders
        (login (AuthState.mk none none) Store.empty (.ok "tok123")
          (.ok (AuthUser.mk "admin" "Admin" "admin"))).1.2) = false) :=
  authProvider_session_never_authorizes_hooks (AuthState.mk none none) Store.empty
    (.ok "tok123") (.ok (AuthUser.mk "admin" "Admin" "admin")) rfl

/-- C1 counterexample: the claim says that after a fetch fails no
timer driven retry ever fires, but in the reports page the error state
reached from the initial state by one failed health check (mounted page,
no health status, truthy error, retryCount 0) satisfies the guard of the
auto retry effect, which then re-runs checkSystemHealth on a 3000 ms
timer with no user action. -/
theorem reports_autoRetry_fires_after_failure :
    autoRetryFires (checkSystemHealth reportsInitialState (.thrown "Failed to fetch"))
      = true := by
  decide

/-- C1 amended: among all setTimeout and setInterval call sites of the
frontend, the only timers whose firing issues a request are the reports
page initial delayed health check, its 3 second auto retry, and the
refetch interval of useAutoRefresh; of these only the auto retry is
conditioned on an error state, it fires exactly when the page is mounted,
healthStatus is null, error is truthy and retryCount < 2, and since each
timer retry increments retryCount, at most two timer driven retries run
from a fresh error state before only the refresh button remains; the
useAutoRefresh interval (default 30000 ms) re-runs fetchData in every
hook state, as an unconditional refresh rather than an error retry. -/
theorem frontend_timer_retry_policy :
    (∀ t ∈ frontendTimerSites, t.firesFetch = true →
      (t = reportsInitialHealthTimer ∨ t = reportsAutoRetryTimer ∨
        t = autoRefreshIntervalTimer)) ∧
    (∀ t ∈ frontendTimerSites, t.firesFetch = true → t.errorGuarded = true →
      t = reportsAutoRetryTimer) ∧
    (∀ s : ReportsPageState, autoRetryFires s = true ↔
      (s.isMounted = true ∧ s.healthStatus = none ∧ truthy s.error = true ∧
        s.retryCount < 2)) ∧
    (∀ (s : ReportsPageState) (r1 r2 : HealthFetchResult), s.retryCount = 0 →
      autoRetryFires (autoRetryStep (autoRetryStep s r1) r2) = false) ∧
    (∀ (T : Type) (s : ApiState T) (r : FetchResult T),
      autoRefreshTick T 30000 s r = fetchData s r) := by
  have hrc : ∀ (t : ReportsPageState) (r : HealthFetchResult),
      (checkSystemHealth t r).retryCount = t.retryCount := by
    intro t r
    cases r <;> rfl
  refine ⟨by decide, by decide, ?_, ?_, ?_⟩
  · intro s
    simp [autoRetryFires, Option.isNone_iff_eq_none, and_assoc]
  · intro s r1 r2 h
    have h2 : (autoRetryStep (autoRetryStep s r1) r2).retryCount = s.retryCount + 2 := by
      unfold autoRetryStep
      rw [hrc, hrc]
    simp [autoRetryFires, h2, h]
  · intro T s r
    rfl

/-- C1 amended witness: the error guarded fetch issuing timer is the auto
retry timer, and from the post failure state with retryCount 0, after two
timer retries that both fail the guard no longer fires. -/
theorem frontend_timer_retry_policy_witness :
    (TimerSite.mk "ReportsPage.autoRetryEffect" 3000 false true true
        = reportsAutoRetryTimer) ∧
    autoRetryFires (autoRetryStep (autoRetryStep
      (checkSystemHealth reportsInitialState (.thrown "Failed to fetch"))
      .aborted) .aborted) = false :=
  ⟨frontend_timer_retry_policy.2.1
      (TimerSite.mk "ReportsPage.autoRetryEffect" 3000 false true true)
      (by decide) rfl rfl,
    frontend_timer_retry_policy.2.2.2.1
      (checkSystemHealth reportsInitialState (.thrown "Failed to fetch"))
      .aborted .aborted rfl⟩

/-- C3 counterexample: the claim says no fetch ever has a cancellation
mechanism, but the reports page health check is a fetch call site of the
frontend that attaches an AbortController signal and arms a timeout that
aborts the request after 8000 ms. -/
theorem health_check_attaches_abort_signal :
    checkSystemHealthSite ∈ frontendFetchSites ∧
    checkSystemHealthSite.hasAbortSignal = true ∧
    checkSystemHealthSite.abortTimeoutMs = some 8000 := by
  refine ⟨?_, rfl, rfl⟩
  decide

/-- C3 amended: among all fetch call sites of the frontend, the reports
page health check is the only one with a cancellation mechanism (an abort
signal, armed with an 8000 ms timeout); every other fetch attaches no
signal and has no aborting timeout. -/
theorem only_health_check_has_cancellation :
    ∀ site ∈ frontendFetchSites,
      (site.hasAbortSignal = true ∨ site.abortTimeoutMs ≠ none) →
      site = checkSystemHealthSite := by
  decide

/-- C3 amended witness: the record of the health check call site, with its
signal and 8000 ms abort timer, is the distinguished cancellable site. -/
theorem only_health_check_has_cancellation_witness :
    (FetchSite.mk "ReportsPage.checkSystemHealth" "/v2/reports/health" "GET"
      true (some 8000)) = checkSystemHealthSite :=
  only_health_check_has_cancellation
    (FetchSite.mk "ReportsPage.checkSystemHealth" "/v2/reports/health" "GET"
      true (some 8000)) (by decide) (Or.inl rfl)

/-- C4 counterexample: the claim says every hook request URL has a path of
one of the forms /v2/analytics/*, /v2/reports/*, /token or /me, but the
URL built by useUniversalAnalytics without filters is
/universal/analytics/overview, which matches none of those forms. -/
theorem universal_overview_breaks_spec_path_forms :
    specPathForm (useUniversalAnalyticsUrl none) = false := by
  decide

/-- C4 amended: every request URL issued by the data fetching hooks has a
path of one of the forms /universal/*, /v2/analytics/*, /v2/reports/*,
/token or /me (the four universal hooks use /universal/* paths, the other
hooks use /v2/analytics/* paths). -/
theorem hook_urls_have_repo_path_forms (filters : Option AnalyticsFilters)
    (customerExternalId : String) :
    repoPathForm (useUniversalAnalyticsUrl filters) = true ∧
    repoPathForm (useUniversalCustomersUrl filters) = true ∧
    repoPathForm (useUniversalProductsUrl filters) = true ∧
    repoPathForm (useUniversalOrdersUrl filters) = true ∧
    repoPathForm (useCustomerInsightsUrl customerExternalId) = true ∧
    repoPathForm (useProductPerformanceUrl filters) = true ∧
    repoPathForm useCrossPlatformInsightsUrl = true ∧
    repoPathForm useCustomerSegmentsUrl = true := by
  refine ⟨?_, ?_, ?_, ?_, ?_, ?_, by decide, by decide⟩
  · exact repoPathForm_of_universal "/universal/analytics/overview" _ (by decide)
  · exact repoPathForm_of_universal "/universal/customers" _ (by decide)
  · exact repoPathForm_of_universal "/universal/products" _ (by decide)
  · exact repoPathForm_of_universal "/universal/orders" _ (by decide)
  · exact repoPathForm_of_v2_analytics "/v2/analytics/customer-insights/" _ (by decide)
  · exact repoPathForm_of_v2_analytics "/v2/analytics/product-performance" _ (by decide)

/-- A login form state holding a token from an earlier successful attempt. -/
def formStateWithOldToken : LoginFormState :=
  { email := "a@b.c", password := "pw", error := none,
    token := some "old-token", user := none }

/-- C6 counterexample: the claim says a failed login leaves the in memory
token unchanged, but `handleSubmit` of the login form resets its token
state to null at the start of every attempt, so a failed attempt from a
state whose token is "old-token" ends with a null token. -/
theorem failed_login_clears_form_token :
    (handleSubmit formStateWithOldToken Store.empty (.httpFailure none)).1.token
        = none ∧
      formStateWithOldToken.token = some "old-token" ∧
      (handleSubmit formStateWithOldToken Store.empty (.httpFailure none)).1.token
        ≠ formStateWithOldToken.token := by
  decide

/-- C6 amended: a successful login through the login form stores the
access token returned by /token in localStorage under the key "token"
(AuthProvider.login stores it under "auth_token"), and a failed login
(non ok response or network error) leaves localStorage unchanged;
AuthProvider.login also leaves its in memory token unchanged on failure,
while the login form clears its in memory token at the start of every
attempt, so after a failed attempt the form token is null rather than its
previous value. -/
theorem login_flows_storage_spec :
    (∀ (st : LoginFormState) (store : Store) (tok meBody : String),
      (handleSubmit st store (.ok tok meBody)).2.get "token" = some tok ∧
      (handleSubmit st store (.ok tok meBody)).1.token = some tok) ∧
    (∀ (st : LoginFormState) (store : Store) (detail : Option String),
      (handleSubmit st store (.httpFailure detail)).2 = store ∧
      (handleSubmit st store (.httpFailure detail)).1.token = none) ∧
    (∀ (st : LoginFormState) (store : Store),
      (handleSubmit st store .thrown).2 = store ∧
      (handleSubmit st store .thrown).1.token = none) ∧
    (∀ (st : AuthState) (store : Store) (me : MeResult),
      login st store .httpFailure me = ((st, store), false) ∧
      login st store .thrown me = ((st, store), false)) ∧
    (∀ (st : AuthState) (store : Store) (tok : String) (u : AuthUser),
      (login st store (.ok tok) (.ok u)).1.2.get "auth_token" = some tok ∧
      (login st store (.ok tok) (.ok u)).1.1.token = some tok) := by
  refine ⟨?_, ?_, ?_, ?_, ?_⟩
  · intro st store tok meBody
    constructor
    · unfold handleSubmit
      dsimp only
      split
      · rw [Store.get_removeItem_ne _ "postLoginRedirect" "token" (by decide)]
        exact Store.get_setItem_self store "token" tok
      · exact Store.get_setItem_self store "token" tok
    · rfl
  · intro st store detail
    exact ⟨rfl, rfl⟩
  · intro st store
    exact ⟨rfl, rfl⟩
  · intro st store me
    exact ⟨rfl, rfl⟩
  · intro st store tok u
    exact ⟨Store.get_setItem_self store "auth_token" tok, rfl⟩

/-- A product performance record with the given name and revenue. -/
def sampleProduct (nm : String) (rev : Rat) : ProductPerformance :=
  { name := nm, category := "c", list_price := 10, sku := nm,
    platform := "shopify", times_purchased := 1, total_units_sold := 1,
    total_revenue := rev, avg_selling_price := 10, lowest_selling_price := 10,
    highest_selling_price := 10, unique_customers := 1, unique_orders := 1,
    first_sale_date := "2024-01-01", last_sale_date := "2024-01-02",
    discount_rate := 0, repeat_purchase_rate := 0 }

/-- C7 counterexample: the claim says no component or chart utility
mutates a hook returned array, but ProductRevenueChart calls
Array.prototype.sort on the products array of useProductPerformance and
getTopItems calls it on its data argument; sort reorders the receiver
array in place, so after rendering a two element array parsed in
ascending revenue order the hook array is in descending order, not the
parse order. -/
theorem charts_mutate_hook_arrays :
    productsAfterRevenueChart [sampleProduct "a" 1, sampleProduct "b" 2] ≠
      [sampleProduct "a" 1, sampleProduct "b" 2] ∧
    sortValueDesc [Item.mk "x" 1, Item.mk "y" 2] ≠
      [Item.mk "x" 1, Item.mk "y" 2] := by
  decide

/-- C7 amended: parsed entity arrays are not treated read only: of all
sort call sites of the frontend, exactly six receive a parsed array (the
in place sorts of ProductRevenueChart, ProductVolumeChart and
TopCustomersBarChart on hook arrays, CLVConfidenceChart on the fetched
CLV array, and getTopItems and transformForLineChart on their argument
arrays; every other sort receives a freshly constructed array), and each
of them only reorders the array into sorted order of its key while
keeping exactly the parsed elements, so after any rendering or
transformation the array is a permutation of the parsed response. -/
theorem chart_sorts_are_permutations :
    (∀ s ∈ frontendSortSites,
      (s.receiver = SortReceiver.hookArray ∨ s.receiver = SortReceiver.argumentArray) →
      s.component ∈ modelledSortComponents) ∧
    (∀ products : List ProductPerformance,
      (productsAfterRevenueChart products).Perm products ∧
      (productsAfterRevenueChart products).Sorted productRevGE) ∧
    (∀ products : List ProductPerformance,
      (productsAfterVolumeChart products).Perm products ∧
      (productsAfterVolumeChart products).Pairwise
        (fun a b => b.total_units_sold ≤ a.total_units_sold)) ∧
    (∀ customers : List Customer,
      (customersAfterTopCustomersChart customers).Perm customers ∧
      (customersAfterTopCustomersChart customers).Pairwise
        (fun a b => b.total_spent ≤ a.total_spent)) ∧
    (∀ data : List CLVMetrics,
      (clvDataAfterConfidenceChart data).Perm data ∧
      (clvDataAfterConfidenceChart data).Pairwise (fun a b => b.clv ≤ a.clv)) ∧
    (∀ (getTime : String → Rat) (data : List LineChartPoint),
      (dataAfterLineChartTransform getTime data).Perm data ∧
      (dataAfterLineChartTransform getTime data).Pairwise
        (fun a b => getTime a.date ≤ getTime b.date)) ∧
    (∀ data : List Item,
      (sortValueDesc data).Perm data ∧ (sortValueDesc data).Sorted itemGE) := by
  refine ⟨by decide, ?_, ?_, ?_, ?_, ?_, ?_⟩
  · intro products
    exact ⟨List.perm_insertionSort productRevGE products,
      List.sorted_insertionSort productRevGE products⟩
  · intro products
    exact sortInPlaceByDesc_perm_sorted (fun p => p.total_units_sold) products
  · intro customers
    exact sortInPlaceByDesc_perm_sorted (fun c => c.total_spent) customers
  · intro data
    exact sortInPlaceByDesc_perm_sorted (fun m => m.clv) data
  · intro getTime data
    exact sortInPlaceByAsc_perm_sorted (fun p => getTime p.date) data
  · intro data
    exact ⟨List.perm_insertionSort itemGE data,
      List.sorted_insertionSort itemGE data⟩

/-- C7 amended witness: the fetched array sort of CLVConfidenceChart is
among the modelled mutation sites. -/
theorem chart_sorts_are_permutations_witness :
    "CLVConfidenceChart" ∈ modelledSortComponents :=
  chart_sorts_are_permutations.1
    (SortSite.mk "CLVConfidenceChart" "clv desc" SortReceiver.hookArray)
    (by decide) (Or.inl rfl)

end Nexus
